import Mathlib

/-!
Shallow embedding of the EV power-station management platform's core
request handlers, translated from the TypeScript sources:

* `src/unnamed/part_000` — the tRPC station router (`getById`,
  `updatePortStatus`, `findNearby`, `getRealtimeStats`, ...);
* `src/services/auth-service/src/trpc.ts` — the auth/tenant middlewares
  (in particular the Prisma proxy of `tenantMiddleware`);
* `src/services/auth-service/src/index.ts` — `authRouter.register`;
* `src/services/auth-service/src/utils/jwt.ts` — `signJWT`, `verifyJWT`,
  `refreshToken`;
* `src/services/payment-service/src/controllers/payment.controller.ts` —
  `createPaymentIntent`, `confirmPayment`, `refundPayment`.

The database is modelled as explicit lists of rows; Prisma calls become
pure functions on that state; tRPC errors become an `ErrCode` value.
Handlers that wrap their body in `try/catch { throw INTERNAL_SERVER_ERROR }`
are modelled with that rewrapping made explicit, since it is observable.
External provider calls (Stripe) are modelled by passing the provider's
response as an explicit argument.
-/

namespace EV

/-- tRPC error codes used by the handlers (`TRPCError.code`). -/
inductive ErrCode
  | UNAUTHORIZED
  | FORBIDDEN
  | NOT_FOUND
  | CONFLICT
  | BAD_REQUEST
  | INTERNAL_SERVER_ERROR
  deriving DecidableEq, Repr

/-- Charging-port status enum (`updatePortStatusSchema.status`). -/
inductive PortStatus
  | AVAILABLE
  | OCCUPIED
  | RESERVED
  | OUT_OF_ORDER
  | MAINTENANCE
  deriving DecidableEq, Repr

/-- Connector type enum (`addChargingPortSchema.connectorType`). -/
inductive ConnectorType
  | TYPE1
  | TYPE2
  | CCS1
  | CCS2
  | CHAdeMO
  | TESLA
  | NACS
  deriving DecidableEq, Repr

/-- Payment status values written by the payment controller. -/
inductive PaymentStatus
  | PENDING
  | COMPLETED
  | REFUNDED
  | FAILED
  deriving DecidableEq, Repr

/-- Charging-session status values used by the routers. -/
inductive SessionStatus
  | INITIATED
  | ACTIVE
  | COMPLETING
  | COMPLETED
  | ERROR
  | CANCELLED
  deriving DecidableEq, Repr

/-- A `Tenant` row. -/
structure Tenant where
  id : Nat
  name : String
  ttype : String
  isActive : Bool
  deriving DecidableEq, Repr

/-- A `User` row (the fields the handlers read). -/
structure User where
  id : Nat
  email : String
  tenantId : Nat
  role : String
  isActive : Bool
  deriving DecidableEq, Repr

/-- A `Station` row. -/
structure Station where
  id : Nat
  tenantId : Nat
  name : String
  latitude : ℚ
  longitude : ℚ
  isActive : Bool
  deriving DecidableEq, Repr

/-- A `ChargingPort` row. -/
structure ChargingPort where
  id : Nat
  stationId : Nat
  connectorType : ConnectorType
  powerOutput : ℚ
  status : PortStatus
  deriving DecidableEq, Repr

/-- A `ChargingSession` row (the fields the handlers read/write). -/
structure ChargingSession where
  id : Nat
  portId : Nat
  userId : Nat
  status : SessionStatus
  cost : Option ℚ
  energyUsed : Option ℚ
  deriving DecidableEq, Repr

/-- A `Booking` row (the fields the handlers read/write). -/
structure Booking where
  id : Nat
  userId : Nat
  totalCost : Option ℚ
  deriving DecidableEq, Repr

/-- A `Payment` row. -/
structure Payment where
  id : Nat
  amount : ℚ
  currency : String
  status : PaymentStatus
  stripePaymentId : Option String
  userId : Nat
  sessionId : Option Nat
  bookingId : Option Nat
  deriving DecidableEq, Repr

/-- The database state: one list of rows per Prisma model, plus a fresh-id
counter modelling Prisma's id generation for `create` calls. -/
structure DB where
  tenants : List Tenant
  users : List User
  stations : List Station
  ports : List ChargingPort
  sessions : List ChargingSession
  bookings : List Booking
  payments : List Payment
  nextId : Nat
  deriving DecidableEq, Repr

/-- The authenticated caller installed on the context by `authMiddleware`
(`ctx.user = \x7b id, tenantId, role \x7d`). -/
structure AuthUser where
  id : Nat
  tenantId : Nat
  role : String
  deriving DecidableEq, Repr

/-! ### stationRouter.getById and stationRouter.updatePortStatus

`getById` is a `protectedProcedure` (authentication only): it runs
`prisma.station.findUnique(\x7b where: \x7b id \x7d \x7d)` with no tenant
condition, throwing `NOT_FOUND` only when no station has that id.
`updatePortStatus` is likewise a `protectedProcedure`: it runs
`prisma.chargingPort.update(\x7b where: \x7b id: portId \x7d \x7d)` with no
ownership check (Prisma's update on a missing row throws, surfacing as an
internal error at the tRPC boundary). -/

/-- Handler `stationRouter.getById` (src/unnamed/part_000, lines 127-160). -/
def station_getById (db : DB) (_caller : AuthUser) (id : Nat) :
    Except ErrCode Station :=
  match db.stations.find? (fun s => s.id == id) with
  | some s => .ok s
  | none => .error .NOT_FOUND

/-- Handler `stationRouter.updatePortStatus` (src/unnamed/part_000, lines 229-243):
returns the post-state database and the handler result. -/
def station_updatePortStatus (db : DB) (_caller : AuthUser) (portId : Nat)
    (status : PortStatus) : DB × Except ErrCode ChargingPort :=
  match db.ports.find? (fun p => p.id == portId) with
  | some p =>
      ({ db with
          ports := db.ports.map fun q =>
            if q.id == portId then { q with status := status } else q },
        .ok { p with status := status })
  | none => (db, .error .INTERNAL_SERVER_ERROR)

/-! ### tenantMiddleware (src/services/auth-service/src/trpc.ts, lines 84-121)

The middleware wraps `ctx.prisma` in a proxy.  Only the methods listed in
`['findMany', 'findFirst', 'findUnique', 'count', 'aggregate']` are
intercepted; for those it assigns `args.where.tenantId = ctx.user.tenantId`
(creating `args.where` when absent).  Every other model method — in
particular `create`, `update`, `delete` — is returned unwrapped. -/

/-- The Prisma model methods that appear in the middleware's dispatch. -/
inductive PrismaAction
  | findMany
  | findFirst
  | findUnique
  | count
  | aggregate
  | create
  | update
  | delete
  deriving DecidableEq, Repr

/-- The method names intercepted by the proxy, in source order. -/
def interceptedActions : List PrismaAction :=
  [.findMany, .findFirst, .findUnique, .count, .aggregate]

/-- A `where` clause, abstracted to the fields the middleware and the
handlers actually touch: an optional `tenantId` condition and an optional
`id` condition. -/
structure WhereClause where
  tenantId : Option Nat
  idEq : Option Nat
  deriving DecidableEq, Repr

/-- Prisma call arguments: `args.where` may be absent. -/
structure QueryArgs where
  whereClause : Option WhereClause
  deriving DecidableEq, Repr

/-- The argument rewriting performed by the proxy in `tenantMiddleware`:
intercepted read methods get `where.tenantId` overwritten with the caller's
tenant id; all other methods receive their arguments unchanged. -/
def scopeArgs (callerTenantId : Nat) (action : PrismaAction)
    (args : QueryArgs) : QueryArgs :=
  if action ∈ interceptedActions then
    match args.whereClause with
    | some w => { whereClause := some { w with tenantId := some callerTenantId } }
    | none => { whereClause := some { tenantId := some callerTenantId, idEq := none } }
  else args

/-- Whether a station row matches a `where` clause. -/
def rowMatches (w : WhereClause) (s : Station) : Bool :=
  (match w.tenantId with
   | some t => s.tenantId == t
   | none => true) &&
  (match w.idEq with
   | some i => s.id == i
   | none => true)

/-- An absent `where` clause matches every row. -/
def matchesOpt (w : Option WhereClause) (s : Station) : Bool :=
  match w with
  | some w' => rowMatches w' s
  | none => true

/-- A `findMany` on the station table issued through the tenant guard:
the proxy rewrites the arguments, then the store filters rows. -/
def guardedFindMany (callerTenantId : Nat) (db : DB) (args : QueryArgs) :
    List Station :=
  db.stations.filter (matchesOpt (scopeArgs callerTenantId .findMany args).whereClause)

/-- An `updateMany`-style write on the station table issued through the
tenant guard (setting the row's name): the proxy passes `update` through
unmodified, and the store mutates every matching row.  The result carries
the post-state and the call outcome. -/
def guardedUpdate (callerTenantId : Nat) (db : DB) (args : QueryArgs)
    (newName : String) : DB × Except ErrCode Unit :=
  let args' := scopeArgs callerTenantId .update args
  ({ db with
      stations := db.stations.map fun s =>
        if matchesOpt args'.whereClause s then { s with name := newName } else s },
    .ok ())

/-! ### Payment controller
(src/services/payment-service/src/controllers/payment.controller.ts)

All three mutations wrap their whole body in
`try { ... } catch { throw TRPCError(INTERNAL_SERVER_ERROR) }`, so any
error raised inside the body — including the `TRPCError`s the body itself
throws — reaches the caller as `INTERNAL_SERVER_ERROR`.  Stripe responses
are passed in as explicit arguments. -/

/-- The status Stripe reports for a payment intent on `retrieve`. -/
inductive StripeIntentStatus
  | succeeded
  | requires_payment_method
  | processing
  | canceled
  deriving DecidableEq, Repr

/-- Input of `createPaymentIntent` (`createPaymentIntentSchema`). -/
structure PaymentIntentInput where
  amount : ℚ
  currency : String
  sessionId : Option Nat
  bookingId : Option Nat
  deriving DecidableEq, Repr

/-- Result of `createPaymentIntent` (the `clientSecret` is provider data,
omitted). -/
structure CreateIntentResult where
  paymentId : Nat
  amount : ℚ
  currency : String
  deriving DecidableEq, Repr

/-- Handler `paymentRouter.createPaymentIntent` (payment.controller.ts, lines
36-86).  `stripeOk` is whether `stripe.paymentIntents.create` succeeds;
on success the handler unconditionally inserts a fresh `PENDING` payment
row (there is no lookup for an existing payment for the same session or
amount).  The provider intent id is modelled from the fresh-id counter. -/
def createPaymentIntent (db : DB) (caller : AuthUser)
    (input : PaymentIntentInput) (stripeOk : Bool) :
    DB × Except ErrCode CreateIntentResult :=
  if stripeOk then
    let intentId := "pi_" ++ toString db.nextId
    let payment : Payment :=
      { id := db.nextId
        amount := input.amount
        currency := input.currency
        status := .PENDING
        stripePaymentId := some intentId
        userId := caller.id
        sessionId := input.sessionId
        bookingId := input.bookingId }
    ({ db with payments := db.payments ++ [payment], nextId := db.nextId + 1 },
      .ok { paymentId := payment.id, amount := input.amount, currency := input.currency })
  else
    (db, .error .INTERNAL_SERVER_ERROR)

/-- Result of `confirmPayment`. -/
structure ConfirmResult where
  paymentId : Nat
  status : PaymentStatus
  amount : ℚ
  deriving DecidableEq, Repr

/-- Handler `paymentRouter.confirmPayment` (payment.controller.ts, lines 89-148).
`retrieved` is the status Stripe reports for the intent (`none` when the
retrieve call itself fails).  Control flow of the body: a non-`succeeded`
status throws `BAD_REQUEST` (rewrapped by the catch-all); then
`payment.update` keyed on `(stripePaymentId, userId)` sets the status to
COMPLETED; then, when the payment is bound to a session (resp. booking),
`chargingSession.update` (resp. `booking.update`) writes the amount onto
it.  A failing later update leaves the earlier writes in place (no
transaction) and surfaces `INTERNAL_SERVER_ERROR`. -/
def confirmPayment (db : DB) (caller : AuthUser) (paymentIntentId : String)
    (_paymentMethodId : String) (retrieved : Option StripeIntentStatus) :
    DB × Except ErrCode ConfirmResult :=
  match retrieved with
  | none => (db, .error .INTERNAL_SERVER_ERROR)
  | some st =>
    if st == .succeeded then
      match db.payments.find? (fun p =>
          p.stripePaymentId == some paymentIntentId && p.userId == caller.id) with
      | none => (db, .error .INTERNAL_SERVER_ERROR)
      | some p =>
        let db1 : DB :=
          { db with
              payments := db.payments.map fun q =>
                if q.id == p.id then { q with status := .COMPLETED } else q }
        let sessionStep : DB × Bool :=
          match p.sessionId with
          | some sid =>
            if db1.sessions.any (fun s => s.id == sid) then
              ({ db1 with
                  sessions := db1.sessions.map fun s =>
                    if s.id == sid then { s with cost := some p.amount } else s },
                true)
            else (db1, false)
          | none => (db1, true)
        if sessionStep.2 then
          let db2 := sessionStep.1
          match p.bookingId with
          | some bid =>
            if db2.bookings.any (fun b => b.id == bid) then
              ({ db2 with
                  bookings := db2.bookings.map fun b =>
                    if b.id == bid then { b with totalCost := some p.amount } else b },
                .ok { paymentId := p.id, status := .COMPLETED, amount := p.amount })
            else (db2, .error .INTERNAL_SERVER_ERROR)
          | none =>
            (db2, .ok { paymentId := p.id, status := .COMPLETED, amount := p.amount })
        else (sessionStep.1, .error .INTERNAL_SERVER_ERROR)
    else (db, .error .INTERNAL_SERVER_ERROR)

/-- Refund reasons (`refundPaymentSchema.reason`). -/
inductive RefundReason
  | duplicate
  | fraudulent
  | requested_by_customer
  deriving DecidableEq, Repr

/-- The refund object Stripe returns on `refunds.create`. -/
structure StripeRefund where
  id : String
  amount : ℚ
  deriving DecidableEq, Repr

/-- Handler `paymentRouter.refundPayment` (payment.controller.ts, lines 199-258).
The lookup is `payment.findFirst` filtered on
`id = paymentId AND userId = caller AND status = 'COMPLETED'`; a miss
throws `NOT_FOUND`, which the catch-all rewraps as
`INTERNAL_SERVER_ERROR`.  `stripeRefund` is the provider's response to
`refunds.create` (`none` = provider failure, also rewrapped); on provider
success the payment's status is set to `REFUNDED`. -/
def refundPayment (db : DB) (caller : AuthUser) (paymentId : Nat)
    (_amount : Option ℚ) (_reason : RefundReason)
    (stripeRefund : Option StripeRefund) :
    DB × Except ErrCode StripeRefund :=
  match db.payments.find? (fun p =>
      p.id == paymentId && p.userId == caller.id && p.status == .COMPLETED) with
  | none => (db, .error .INTERNAL_SERVER_ERROR)
  | some p =>
    match p.stripePaymentId with
    | none => (db, .error .INTERNAL_SERVER_ERROR)
    | some _ =>
      match stripeRefund with
      | none => (db, .error .INTERNAL_SERVER_ERROR)
      | some r =>
        ({ db with
            payments := db.payments.map fun q =>
              if q.id == paymentId then { q with status := .REFUNDED } else q },
          .ok r)

/-! ### authRouter.register (src/services/auth-service/src/index.ts,
lines 236-261 of the auth controller)

After the duplicate-email check, tenant creation and admin-user creation
both run inside one `prisma.$transaction` callback; Prisma's contract for
an interactive transaction is that when the callback throws, none of its
writes persist.  `userCreateFails` models a storage failure of the second
create inside the transaction (e.g. a constraint violation). -/

/-- Input of `authRouter.register` (`registerSchema`, the fields the
handler persists). -/
structure RegisterInput where
  email : String
  tenantName : String
  tenantType : String
  deriving DecidableEq, Repr

/-- Handler `authRouter.register`: returns the post-state and the created pair. -/
def register (db : DB) (input : RegisterInput) (userCreateFails : Bool) :
    DB × Except ErrCode (Tenant × User) :=
  if db.users.any (fun u => u.email == input.email) then
    (db, .error .CONFLICT)
  else
    let tenant : Tenant :=
      { id := db.nextId, name := input.tenantName, ttype := input.tenantType,
        isActive := true }
    let dbT : DB :=
      { db with tenants := db.tenants ++ [tenant], nextId := db.nextId + 1 }
    if userCreateFails then
      (db, .error .INTERNAL_SERVER_ERROR)
    else
      let user : User :=
        { id := dbT.nextId, email := input.email, tenantId := tenant.id,
          role := "TENANT_ADMIN", isActive := true }
      ({ dbT with users := dbT.users ++ [user], nextId := dbT.nextId + 1 },
        .ok (tenant, user))

/-! ### JWT utilities (src/services/auth-service/src/utils/jwt.ts)

`jsonwebtoken` is modelled symbolically: a token is its claims plus a
signature, where the HMAC is represented by the pair (claims, secret) —
verification succeeds exactly when the signature was produced over the
same claims with the same secret and the token is not expired.
`expiresIn: '24h'` is 86400 seconds; times are seconds since epoch. -/

/-- The payload `signJWT` signs (`JWTPayload` without `iat`/`exp`). -/
structure JWTPayload where
  userId : String
  tenantId : String
  role : String
  deriving DecidableEq, Repr

/-- The registered claims a signed token carries. -/
structure JWTClaims where
  payload : JWTPayload
  iat : Nat
  exp : Nat
  issuer : String
  deriving DecidableEq, Repr

/-- A signed token: claims plus the symbolic MAC over them. -/
structure Token where
  claims : JWTClaims
  sig : JWTClaims × String
  deriving DecidableEq, Repr

/-- Function `signJWT` (jwt.ts, lines 13-18). -/
def signJWT (secret : String) (now : Nat) (p : JWTPayload) : Token :=
  let claims : JWTClaims :=
    { payload := p, iat := now, exp := now + 86400, issuer := "ev-platform" }
  { claims := claims, sig := (claims, secret) }

/-- Function `verifyJWT` (jwt.ts, lines 20-22): `jwt.verify` checks the signature
and the expiry and returns the decoded claims. -/
def verifyJWT (secret : String) (now : Nat) (t : Token) :
    Except ErrCode JWTClaims :=
  if t.sig == (t.claims, secret) && now < t.claims.exp then
    .ok t.claims
  else
    .error .UNAUTHORIZED

/-- Function `refreshToken` (jwt.ts, lines 24-35): verify the old token, then sign
a fresh token over the decoded `userId`/`tenantId`/`role`. -/
def refreshToken (secret : String) (now : Nat) (old : Token) :
    Except ErrCode Token :=
  match verifyJWT secret now old with
  | .ok claims =>
      .ok (signJWT secret now
        { userId := claims.payload.userId
          tenantId := claims.payload.tenantId
          role := claims.payload.role })
  | .error _ => .error .UNAUTHORIZED

/-! ### stationRouter.getRealtimeStats (src/unnamed/part_000, lines
297-339)

A `tenantProcedure`: the station lookup is scoped to the caller's tenant.
`utilizationRate` is computed as
`occupiedPorts / station.chargingPorts.length` with no guard for a
station that has no ports. -/

/-- The stats record the handler returns. -/
structure RealtimeStats where
  totalPorts : Nat
  availablePorts : Nat
  occupiedPorts : Nat
  outOfOrderPorts : Nat
  activeSessions : Nat
  totalRevenue : ℚ
  totalEnergy : ℚ
  utilizationRate : ℚ
  deriving DecidableEq, Repr

/-- Handler `stationRouter.getRealtimeStats`.  Division in `ℚ` is total with
`x / 0 = 0`; in the source (JavaScript) a zero denominator makes
`utilizationRate` the non-number `NaN`. -/
def getRealtimeStats (db : DB) (caller : AuthUser) (stationId : Nat) :
    Except ErrCode RealtimeStats :=
  match db.stations.find? (fun s =>
      s.id == stationId && s.tenantId == caller.tenantId) with
  | none => .error .NOT_FOUND
  | some s =>
    let chargingPorts := db.ports.filter (fun p => p.stationId == s.id)
    let activeSessions := db.sessions.filter (fun ses =>
      chargingPorts.any (fun p => p.id == ses.portId) && ses.status == .ACTIVE)
    .ok
      { totalPorts := chargingPorts.length
        availablePorts := (chargingPorts.filter (fun p => p.status == .AVAILABLE)).length
        occupiedPorts := (chargingPorts.filter (fun p => p.status == .OCCUPIED)).length
        outOfOrderPorts := (chargingPorts.filter (fun p => p.status == .OUT_OF_ORDER)).length
        activeSessions := activeSessions.length
        totalRevenue := (activeSessions.map (fun ses => ses.cost.getD 0)).sum
        totalEnergy := (activeSessions.map (fun ses => ses.energyUsed.getD 0)).sum
        utilizationRate :=
          ((chargingPorts.filter (fun p => p.status == .OCCUPIED)).length : ℚ) /
            (chargingPorts.length : ℚ) }

/-! ### stationRouter.findNearby (src/unnamed/part_000, lines 246-294)

The raw SQL computes, for every row of `stations` with `is_active = true`,
`6371 * acos(cos(radians(lat)) * cos(radians(s.latitude)) *
cos(radians(s.longitude) - radians(lon)) + sin(radians(lat)) *
sin(radians(s.latitude)))`, keeps the rows with `distance < radius`
(MySQL's alias-`HAVING` acts as a per-row post-`SELECT` filter here),
orders ascending by `distance` and caps at 50 rows.  The handler then
loads each station's ports filtered by the optional connector type and,
when `availableOnly`, by `status = 'AVAILABLE'`, and finally drops
stations with no available port when `availableOnly` is set.

The pipeline is defined over an arbitrary linearly ordered distance key so
a single definition covers both the real-valued SQL distance and
executable instantiations. -/

/-- Function `radians(x)` of the SQL dialect, on a stored (rational) coordinate. -/
noncomputable def radians (deg : ℚ) : ℝ := (deg : ℝ) * Real.pi / 180

/-- The distance expression of the raw SQL in `findNearby`, in km, for
a query point `(qlat, qlon)` and a station row. -/
noncomputable def sqlDistance (qlat qlon : ℚ) (s : Station) : ℝ :=
  6371 * Real.arccos
    (Real.cos (radians qlat) * Real.cos (radians s.latitude) *
        Real.cos (radians s.longitude - radians qlon) +
      Real.sin (radians qlat) * Real.sin (radians s.latitude))

/-- Insertion of one station into a list sorted ascending by `key`
(stable, like `ORDER BY`). -/
def insertByKey {κ : Type} [LinearOrder κ] (key : Station → κ)
    (s : Station) : List Station → List Station
  | [] => [s]
  | t :: ts =>
    if key s ≤ key t then s :: t :: ts else t :: insertByKey key s ts

/-- Sort ascending by `key` (`ORDER BY distance`). -/
def sortByKey {κ : Type} [LinearOrder κ] (key : Station → κ) :
    List Station → List Station
  | [] => []
  | s :: ss => insertByKey key s (sortByKey key ss)

/-- One entry of the `findNearby` response. -/
structure NearbyStation where
  station : Station
  chargingPorts : List ChargingPort
  availablePorts : Nat
  totalPorts : Nat
  deriving DecidableEq, Repr

/-- The port condition of the per-station `chargingPort.findMany`:
`stationId` plus the optional `connectorType` narrowing plus, when
`availableOnly`, `status: 'AVAILABLE'`. -/
def portMatchesFilters (connectorType : Option ConnectorType)
    (availableOnly : Bool) (stationId : Nat) (p : ChargingPort) : Bool :=
  p.stationId == stationId &&
  (match connectorType with
   | some c => p.connectorType == c
   | none => true) &&
  (!availableOnly || p.status == .AVAILABLE)

/-- The SQL stage of `findNearby`: active stations whose distance is
strictly below the radius (`WHERE s.is_active = true` + the
alias-`HAVING` row filter). -/
def nearbyQualifying {κ : Type} [LinearOrder κ] (dist : Station → κ)
    (radius : κ) (db : DB) : List Station :=
  db.stations.filter fun s => s.isActive && decide (dist s < radius)

/-- The per-station port loading of `findNearby`: the ports matching the
optional filters, with the derived counts. -/
def nearbyPorts (connectorType : Option ConnectorType) (availableOnly : Bool)
    (db : DB) (s : Station) : NearbyStation :=
  let ports := db.ports.filter (portMatchesFilters connectorType availableOnly s.id)
  { station := s
    chargingPorts := ports
    availablePorts := (ports.filter (fun p => p.status == .AVAILABLE)).length
    totalPorts := ports.length }

/-- Handler `stationRouter.findNearby`, parameterized by the distance key: filter
to within-radius active stations, `ORDER BY distance`, `LIMIT 50`, load
filtered ports, and finally drop zero-availability stations when
`availableOnly` is set. -/
def findNearby {κ : Type} [LinearOrder κ] (dist : Station → κ) (radius : κ)
    (connectorType : Option ConnectorType) (availableOnly : Bool)
    (db : DB) : List NearbyStation :=
  (((sortByKey dist (nearbyQualifying dist radius db)).take 50).map
      (nearbyPorts connectorType availableOnly db)).filter
    fun r => !availableOnly || r.availablePorts > 0

/-! ## Fixtures for the claim theorems and witnesses -/

/-- Fixture: a station owned by tenant 2, target of a cross-tenant write. -/
def c2Station : Station :=
  { id := 10, tenantId := 2, name := "s2", latitude := 0, longitude := 0,
    isActive := true }

/-- Fixture: the database for the C2 counterexample. -/
def c2Db : DB :=
  { tenants := [], users := [], stations := [c2Station], ports := [],
    sessions := [], bookings := [], payments := [], nextId := 0 }

/-- Fixture: the database for the C3 counterexample. -/
def c3Db : DB :=
  { tenants := [], users := [], stations := [], ports := [], sessions := [],
    bookings := [], payments := [], nextId := 100 }

/-- Fixture: the caller for the C3 counterexample. -/
def c3Caller : AuthUser := { id := 1, tenantId := 1, role := "DRIVER" }

/-- Fixture: a payment-intent input bound to session 5. -/
def c3Input : PaymentIntentInput :=
  { amount := 25, currency := "USD", sessionId := some 5, bookingId := none }

/-- Fixture: a PENDING payment owned by user 1. -/
def c4Payment : Payment :=
  { id := 30, amount := 40, currency := "USD", status := .PENDING,
    stripePaymentId := some ("pi_30"), userId := 1, sessionId := none,
    bookingId := none }

/-- Fixture: the database for the C4 counterexample. -/
def c4Db : DB :=
  { tenants := [], users := [], stations := [], ports := [], sessions := [],
    bookings := [], payments := [c4Payment], nextId := 31 }

/-- Fixture: the caller owning the PENDING payment. -/
def c4Caller : AuthUser := { id := 1, tenantId := 1, role := "DRIVER" }

/-- Fixture: a PENDING payment awaiting confirmation. -/
def c5Payment : Payment :=
  { id := 40, amount := 15, currency := "USD", status := .PENDING,
    stripePaymentId := some ("pi_40"), userId := 1, sessionId := none,
    bookingId := none }

/-- Fixture: the database for the C5 failing input. -/
def c5Db : DB :=
  { tenants := [], users := [], stations := [], ports := [], sessions := [],
    bookings := [], payments := [c5Payment], nextId := 41 }

/-- Fixture: the caller owning the payment. -/
def c5Caller : AuthUser := { id := 1, tenantId := 1, role := "DRIVER" }

/-- Fixture: the session payment `pi_50` is bound to. -/
def c6Session : ChargingSession :=
  { id := 5, portId := 1, userId := 1, status := .ACTIVE, cost := none,
    energyUsed := some 10 }

/-- Fixture: the booking payment `pi_50` is bound to. -/
def c6Booking : Booking := { id := 6, userId := 1, totalCost := none }

/-- Fixture: a PENDING payment bound to session 5 and booking 6. -/
def c6Payment : Payment :=
  { id := 50, amount := 22, currency := "USD", status := .PENDING,
    stripePaymentId := some ("pi_50"), userId := 1, sessionId := some 5,
    bookingId := some 6 }

/-- Fixture: the database for the C6 witness. -/
def c6Db : DB :=
  { tenants := [], users := [], stations := [], ports := [],
    sessions := [c6Session], bookings := [c6Booking],
    payments := [c6Payment], nextId := 51 }

/-- Fixture: the caller owning payment `pi_50`. -/
def c6Caller : AuthUser := { id := 1, tenantId := 1, role := "DRIVER" }

/-- Fixture: the payload for the C9 witness. -/
def c9Payload : JWTPayload := { userId := "u1", tenantId := "t1", role := "DRIVER" }

/-- Fixture: the two-port station of the C10 witness, tenant 1. -/
def c10Station : Station :=
  { id := 1, tenantId := 1, name := "s", latitude := 0, longitude := 0,
    isActive := true }

/-- Fixture: the database of the C10 witness — one OCCUPIED and one
AVAILABLE port. -/
def c10Db : DB :=
  { tenants := [], users := [], stations := [c10Station]
    ports :=
      [{ id := 1, stationId := 1, connectorType := .CCS2, powerOutput := 50,
         status := .OCCUPIED },
       { id := 2, stationId := 1, connectorType := .TYPE2, powerOutput := 22,
         status := .AVAILABLE }]
    sessions := [], bookings := [], payments := [], nextId := 3 }

/-- Fixture: the stats record `getRealtimeStats` returns on `c10Db`. -/
def c10Stats : RealtimeStats :=
  { totalPorts := 2, availablePorts := 1, occupiedPorts := 1,
    outOfOrderPorts := 0, activeSessions := 0, totalRevenue := 0,
    totalEnergy := 0, utilizationRate := 1 / 2 }

/-- Fixture: the scenario station ≈1.4 km from the query point
(spec scenario: station at (37.7749, -122.4194)). -/
def nearStation : Station :=
  { id := 1, tenantId := 1, name := "near", latitude := 37.7749,
    longitude := -122.4194, isActive := true }

/-- Fixture: a scenario station ≈54 km north (0.49° of latitude above the
query point), beyond the 10 km radius. -/
def farStation : Station :=
  { id := 2, tenantId := 1, name := "far", latitude := 38.2749,
    longitude := -122.4194, isActive := true }

/-- Fixture: the scenario database with both stations active. -/
def scenarioDb : DB :=
  { tenants := [], users := [], stations := [nearStation, farStation],
    ports := [], sessions := [], bookings := [], payments := [], nextId := 3 }

/-- Fixture: the station of the C7 witness instantiation. -/
def c7WitnessStation : Station :=
  { id := 1, tenantId := 1, name := "w", latitude := 1, longitude := 2,
    isActive := true }

/-- Fixture: the database of the C7 witness instantiation. -/
def c7WitnessDb : DB :=
  { tenants := [], users := [], stations := [c7WitnessStation], ports := [],
    sessions := [], bookings := [], payments := [], nextId := 2 }

/-! ## Claim C1 — cross-tenant access through `getById` / `updatePortStatus` -/

/-- Fixture: a station owned by tenant 2. -/
def c1Station : Station :=
  { id := 10, tenantId := 2, name := "s2", latitude := 0, longitude := 0,
    isActive := true }

/-- Fixture: a port of tenant 2's station. -/
def c1Port : ChargingPort :=
  { id := 20, stationId := 10, connectorType := .CCS2, powerOutput := 50,
    status := .AVAILABLE }

/-- Fixture: a database holding only tenant 2's data. -/
def c1Db : DB :=
  { tenants := [{ id := 2, name := "t2", ttype := "STATION_OPERATOR", isActive := true }]
    users := []
    stations := [c1Station]
    ports := [c1Port]
    sessions := []
    bookings := []
    payments := []
    nextId := 100 }

/-- Fixture: a caller authenticated under tenant 1. -/
def c1Caller : AuthUser := { id := 1, tenantId := 1, role := "TENANT_ADMIN" }

/-- C1 (counterexample): a user of tenant 1 calling `station.getById` on
tenant 2's station receives the station's data (`ok`, not
NotFoundError/AuthorizationError), and `station.updatePortStatus` on
tenant 2's port succeeds and mutates it — contradicting the claim at this
concrete input. -/
theorem c1_cross_tenant_leak :
    c1Caller.tenantId ≠ c1Station.tenantId ∧
    station_getById c1Db c1Caller 10 = .ok c1Station ∧
    (station_updatePortStatus c1Db c1Caller 20 .OCCUPIED).2 =
      .ok { c1Port with status := .OCCUPIED } ∧
    (station_updatePortStatus c1Db c1Caller 20 .OCCUPIED).1.ports =
      [{ c1Port with status := .OCCUPIED }] := by
  refine ⟨by decide, rfl, rfl, rfl⟩

/-- C1 (amended): `station.getById` and `station.updatePortStatus` are
authentication-only endpoints: their result is independent of the caller's
tenant, `getById` returns any existing station's data, and
`updatePortStatus` mutates any existing port.  Tenant isolation does hold
for the tenant-scoped `station.getRealtimeStats`, which answers
NotFoundError on a station of a foreign tenant. -/
theorem c1_amended_access_behavior :
    (∀ (db : DB) (c c' : AuthUser) (id : Nat),
      station_getById db c id = station_getById db c' id) ∧
    (∀ (db : DB) (c : AuthUser) (id : Nat) (s : Station),
      db.stations.find? (fun t => t.id == id) = some s →
      station_getById db c id = .ok s) ∧
    (∀ (db : DB) (c : AuthUser) (pid : Nat) (st : PortStatus) (p : ChargingPort),
      db.ports.find? (fun q => q.id == pid) = some p →
      (station_updatePortStatus db c pid st).2 = .ok { p with status := st } ∧
      { p with status := st } ∈ (station_updatePortStatus db c pid st).1.ports) ∧
    (∀ (db : DB) (c : AuthUser) (sid : Nat),
      (∀ s ∈ db.stations, s.id = sid → s.tenantId ≠ c.tenantId) →
      getRealtimeStats db c sid = .error .NOT_FOUND) := by
  refine ⟨fun db c c' id => rfl, fun db c id s h => ?_, fun db c pid st p h => ?_, fun db c sid h => ?_⟩
  · simp only [station_getById, h]
  · have hmem : p ∈ db.ports := List.mem_of_find?_eq_some h
    have hp := List.find?_some h
    simp only [beq_iff_eq] at hp
    constructor
    · simp only [station_updatePortStatus, h]
    · simp only [station_updatePortStatus, h]
      have := List.mem_map_of_mem
        (f := fun q : ChargingPort => if q.id == pid then { q with status := st } else q) hmem
      simpa [hp] using this
  · have hnone : db.stations.find? (fun s => s.id == sid && s.tenantId == c.tenantId) = none := by
      rw [List.find?_eq_none]
      intro s hs hpred
      simp only [Bool.and_eq_true, beq_iff_eq] at hpred
      exact h s hs hpred.1 hpred.2
    simp only [getRealtimeStats, hnone]

/-- C1 witness: the amended theorem applied at the fixture — the tenant-1
caller retrieves tenant-2's station through `getById`. -/
theorem c1_amended_witness :
    station_getById c1Db c1Caller 10 = .ok c1Station :=
  c1_amended_access_behavior.2.1 c1Db c1Caller 10 c1Station rfl

/-! ## Claim C2 — the tenant access guard scopes reads but not writes -/

/-- C2 (counterexample): an `update` issued through the tenant guard by a
caller of tenant 1, filtered only on `id = 10`, succeeds and renames
tenant 2's station — the guard does not intercept write methods, so no
AuthorizationError is raised and the foreign row is mutated. -/
theorem c2_write_bypasses_guard :
    (guardedUpdate 1 c2Db { whereClause := some { tenantId := none, idEq := some 10 } } "pwned").2 =
      .ok () ∧
    (guardedUpdate 1 c2Db { whereClause := some { tenantId := none, idEq := some 10 } } "pwned").1.stations =
      [{ c2Station with name := "pwned" }] ∧
    c2Station.tenantId ≠ 1 := by
  refine ⟨rfl, by decide, by decide⟩

/-- C2 (amended): through the tenant guard, every intercepted read method
executes with `where.tenantId` equal to the caller's tenant id, overriding
any caller-supplied tenant filter, so every row a guarded `findMany`
returns belongs to the caller's tenant; but write methods (`create`,
`update`, `delete`) are not intercepted: their arguments pass through
unchanged and a write executes against the caller's raw filter with no
tenant-ownership verification and no AuthorizationError. -/
theorem c2_amended_guard_scope :
    (∀ (t : Nat) (a : PrismaAction) (args : QueryArgs),
      a ∈ interceptedActions →
      ∃ w, (scopeArgs t a args).whereClause = some w ∧ w.tenantId = some t) ∧
    (∀ (t : Nat) (db : DB) (args : QueryArgs),
      ∀ s ∈ guardedFindMany t db args, s.tenantId = t) ∧
    (∀ (t : Nat) (a : PrismaAction) (args : QueryArgs),
      a ∉ interceptedActions → scopeArgs t a args = args) ∧
    (∀ (t : Nat) (db : DB) (args : QueryArgs) (n : String),
      guardedUpdate t db args n =
        ({ db with
            stations := db.stations.map fun s =>
              if matchesOpt args.whereClause s then { s with name := n } else s },
          .ok ())) := by
  refine ⟨fun t a args ha => ?_, fun t db args s hs => ?_, fun t a args ha => ?_,
    fun t db args n => ?_⟩
  · simp only [scopeArgs, if_pos ha]
    cases args.whereClause with
    | some w => exact ⟨_, rfl, rfl⟩
    | none => exact ⟨_, rfl, rfl⟩
  · have hmem := List.mem_filter.mp hs
    have hmatch := hmem.2
    revert hmatch
    simp only [guardedFindMany, scopeArgs, if_pos (by decide : PrismaAction.findMany ∈ interceptedActions)]
    cases args.whereClause with
    | some w =>
      simp only [matchesOpt, rowMatches, Bool.and_eq_true, beq_iff_eq]
      exact fun h => h.1
    | none =>
      simp only [matchesOpt, rowMatches, Bool.and_eq_true, beq_iff_eq]
      exact fun h => h.1
  · simp only [scopeArgs, if_neg ha]
  · simp only [guardedUpdate, scopeArgs,
      if_neg (by decide : ¬ PrismaAction.update ∈ interceptedActions)]

/-- C2 witness: the amended theorem applied concretely — a caller of
tenant 7 issuing a `findMany` with a caller-supplied filter
`tenantId = 3` executes with `tenantId = 7` instead. -/
theorem c2_amended_witness :
    ∃ w, (scopeArgs 7 .findMany { whereClause := some { tenantId := some 3, idEq := none } }).whereClause =
        some w ∧ w.tenantId = some 7 :=
  c2_amended_guard_scope.1 7 .findMany
    { whereClause := some { tenantId := some 3, idEq := none } } (by decide)

/-! ## Claim C3 — `createPaymentIntent` is not idempotent on `(sessionId, amount)` -/

/-- C3 (counterexample): two `createPaymentIntent` calls with the identical
`(sessionId, amount)` binding return payment ids 100 and 101 — different
ids — and leave two PENDING payment rows for session 5, falsifying the
claimed idempotence at this concrete input. -/
theorem c3_two_intents_two_payments :
    (createPaymentIntent c3Db c3Caller c3Input true).2 =
      .ok { paymentId := 100, amount := 25, currency := "USD" } ∧
    (createPaymentIntent (createPaymentIntent c3Db c3Caller c3Input true).1
        c3Caller c3Input true).2 =
      .ok { paymentId := 101, amount := 25, currency := "USD" } ∧
    (100 : Nat) ≠ 101 ∧
    ((createPaymentIntent (createPaymentIntent c3Db c3Caller c3Input true).1
        c3Caller c3Input true).1.payments.filter fun p =>
      p.sessionId == some 5 && p.amount == 25 && p.status == .PENDING).length = 2 := by
  refine ⟨rfl, rfl, by decide, by decide⟩

/-- C3 (amended): `createPaymentIntent` creates a fresh payment row on
every successful call — there is no lookup of an existing payment — so a
retried call with the same `(sessionId, amount)` binding returns a new,
distinct payment id and the payment table grows by one row per call. -/
theorem c3_amended_create_always_fresh :
    ∀ (db : DB) (c : AuthUser) (input : PaymentIntentInput),
      (createPaymentIntent db c input true).2 =
        .ok { paymentId := db.nextId, amount := input.amount,
              currency := input.currency } ∧
      (createPaymentIntent (createPaymentIntent db c input true).1 c input true).2 =
        .ok { paymentId := db.nextId + 1, amount := input.amount,
              currency := input.currency } ∧
      db.nextId ≠ db.nextId + 1 ∧
      (createPaymentIntent (createPaymentIntent db c input true).1 c input true).1.payments.length =
        db.payments.length + 2 := by
  intro db c input
  refine ⟨rfl, rfl, by omega, ?_⟩
  simp [createPaymentIntent]

/-! ## Claim C4 — refunding a non-COMPLETED payment -/

/-- C4 (counterexample): refunding the PENDING payment fails with
`INTERNAL_SERVER_ERROR` — not the claimed ConflictError — while the
database (hence the payment's status) is unchanged. -/
theorem c4_refund_pending_not_conflict :
    (refundPayment c4Db c4Caller 30 none .requested_by_customer
        (some { id := "re_1", amount := 40 })).2 =
      .error .INTERNAL_SERVER_ERROR ∧
    ErrCode.INTERNAL_SERVER_ERROR ≠ ErrCode.CONFLICT ∧
    (refundPayment c4Db c4Caller 30 none .requested_by_customer
        (some { id := "re_1", amount := 40 })).1 = c4Db := by
  refine ⟨rfl, by decide, rfl⟩

/-- C4 (amended): `refundPayment` on a payment whose status is PENDING or
REFUNDED fails without mutating: the `findFirst` filter requires
`status = 'COMPLETED'`, so the lookup misses, the handler throws
NotFoundError, and the surrounding catch-all surfaces it as
`INTERNAL_SERVER_ERROR` (not ConflictError); the database is returned
unchanged. -/
theorem c4_amended_refund_requires_completed :
    ∀ (db : DB) (c : AuthUser) (pid : Nat) (amt : Option ℚ)
      (reason : RefundReason) (oracle : Option StripeRefund),
      (∀ p ∈ db.payments, p.id = pid →
        p.status = .PENDING ∨ p.status = .REFUNDED) →
      refundPayment db c pid amt reason oracle =
        (db, .error .INTERNAL_SERVER_ERROR) := by
  intro db c pid amt reason oracle h
  have hnone : db.payments.find? (fun p =>
      p.id == pid && p.userId == c.id && p.status == .COMPLETED) = none := by
    rw [List.find?_eq_none]
    intro p hp hpred
    simp only [Bool.and_eq_true, beq_iff_eq] at hpred
    rcases h p hp hpred.1.1 with h' | h' <;> rw [h'] at hpred <;> exact absurd hpred.2 (by decide)
  simp only [refundPayment, hnone]

/-- C4 witness: the amended theorem applied at the PENDING fixture. -/
theorem c4_amended_witness :
    refundPayment c4Db c4Caller 30 none .requested_by_customer none =
      (c4Db, .error .INTERNAL_SERVER_ERROR) :=
  c4_amended_refund_requires_completed c4Db c4Caller 30 none
    .requested_by_customer none (by decide)

/-! ## Claim C5 — provider non-success on `confirmPayment` -/

/-- C5 (code behavior at the failing input): when the provider reports
`requires_payment_method` for intent `pi_40`, `confirmPayment` leaves the
database unchanged — the payment stays PENDING, as the claim says — but
the surfaced error is `INTERNAL_SERVER_ERROR`, not the thrown
`BAD_REQUEST` (ValidationError): the handler's own catch-all rewraps the
`BAD_REQUEST` it throws at the non-success check. -/
theorem c5_nonsuccess_rewrapped_as_internal :
    confirmPayment c5Db c5Caller ("pi_40") ("pm_1") (some .requires_payment_method) =
      (c5Db, .error .INTERNAL_SERVER_ERROR) ∧
    ErrCode.INTERNAL_SERVER_ERROR ≠ ErrCode.BAD_REQUEST ∧
    StripeIntentStatus.requires_payment_method ≠ StripeIntentStatus.succeeded ∧
    (∀ p ∈ c5Db.payments, p.status = .PENDING) := by
  refine ⟨rfl, by decide, by decide, by decide⟩

/-! ## Claim C6 — provider success on `confirmPayment` -/

/-- C6: when the provider reports success and the payment located by the
provider reference (for this caller) exists, with its bound session and
booking rows present, `confirmPayment` sets that payment's status to
COMPLETED, writes the payment amount as the bound session's `cost` and the
bound booking's `totalCost`, and leaves every other table and every
unbound row unchanged. -/
theorem c6_confirm_success_updates :
    ∀ (db : DB) (c : AuthUser) (intentId pm : String) (p : Payment),
      db.payments.find? (fun q =>
        q.stripePaymentId == some intentId && q.userId == c.id) = some p →
      (∀ sid, p.sessionId = some sid → (db.sessions.any fun s => s.id == sid) = true) →
      (∀ bid, p.bookingId = some bid → (db.bookings.any fun b => b.id == bid) = true) →
      (confirmPayment db c intentId pm (some .succeeded)).2 =
        .ok { paymentId := p.id, status := .COMPLETED, amount := p.amount } ∧
      (confirmPayment db c intentId pm (some .succeeded)).1.payments =
        db.payments.map (fun q =>
          if q.id == p.id then { q with status := .COMPLETED } else q) ∧
      (confirmPayment db c intentId pm (some .succeeded)).1.sessions =
        db.sessions.map (fun s =>
          if p.sessionId == some s.id then { s with cost := some p.amount } else s) ∧
      (confirmPayment db c intentId pm (some .succeeded)).1.bookings =
        db.bookings.map (fun b =>
          if p.bookingId == some b.id then { b with totalCost := some p.amount } else b) ∧
      (confirmPayment db c intentId pm (some .succeeded)).1.stations = db.stations ∧
      (confirmPayment db c intentId pm (some .succeeded)).1.ports = db.ports ∧
      (confirmPayment db c intentId pm (some .succeeded)).1.users = db.users ∧
      (confirmPayment db c intentId pm (some .succeeded)).1.tenants = db.tenants ∧
      (∀ s ∈ db.sessions, p.sessionId ≠ some s.id →
        s ∈ (confirmPayment db c intentId pm (some .succeeded)).1.sessions) ∧
      (∀ b ∈ db.bookings, p.bookingId ≠ some b.id →
        b ∈ (confirmPayment db c intentId pm (some .succeeded)).1.bookings) := by
  intro db c intentId pm p hfind hsess hbook
  have hres :
      (confirmPayment db c intentId pm (some .succeeded)).1.payments =
        db.payments.map (fun q =>
          if q.id == p.id then { q with status := .COMPLETED } else q) ∧
      (confirmPayment db c intentId pm (some .succeeded)).1.sessions =
        db.sessions.map (fun s =>
          if p.sessionId == some s.id then { s with cost := some p.amount } else s) ∧
      (confirmPayment db c intentId pm (some .succeeded)).1.bookings =
        db.bookings.map (fun b =>
          if p.bookingId == some b.id then { b with totalCost := some p.amount } else b) ∧
      (confirmPayment db c intentId pm (some .succeeded)).1.stations = db.stations ∧
      (confirmPayment db c intentId pm (some .succeeded)).1.ports = db.ports ∧
      (confirmPayment db c intentId pm (some .succeeded)).1.users = db.users ∧
      (confirmPayment db c intentId pm (some .succeeded)).1.tenants = db.tenants ∧
      (confirmPayment db c intentId pm (some .succeeded)).2 =
        .ok { paymentId := p.id, status := .COMPLETED, amount := p.amount } := by
    cases hps : p.sessionId with
    | none =>
      cases hpb : p.bookingId with
      | none =>
        simp only [confirmPayment, hfind, hps, hpb, beq_self_eq_true,
          eq_self_iff_true, if_true, and_true, true_and]
        refine ⟨?_, ?_⟩ <;> simp
      | some bid =>
        have hb := hbook bid hpb
        simp only [confirmPayment, hfind, hps, hpb, hb, beq_self_eq_true,
          eq_self_iff_true, if_true, and_true, true_and]
        refine ⟨?_, ?_⟩
        · simp
        · apply List.map_congr_left
          intro b _
          by_cases h : b.id = bid
          · simp [h]
          · simp [h, Ne.symm h]
    | some sid =>
      have hs := hsess sid hps
      cases hpb : p.bookingId with
      | none =>
        simp only [confirmPayment, hfind, hps, hpb, hs, beq_self_eq_true,
          eq_self_iff_true, if_true, and_true, true_and]
        refine ⟨?_, ?_⟩
        · apply List.map_congr_left
          intro s _
          by_cases h : s.id = sid
          · simp [h]
          · simp [h, Ne.symm h]
        · simp
      | some bid =>
        have hb := hbook bid hpb
        simp only [confirmPayment, hfind, hps, hpb, hs, hb, beq_self_eq_true,
          eq_self_iff_true, if_true, and_true, true_and]
        refine ⟨?_, ?_⟩
        · apply List.map_congr_left
          intro s _
          by_cases h : s.id = sid
          · simp [h]
          · simp [h, Ne.symm h]
        · apply List.map_congr_left
          intro b _
          by_cases h : b.id = bid
          · simp [h]
          · simp [h, Ne.symm h]
  obtain ⟨h1, h2, h3, h4, h5, h6, h7, h8⟩ := hres
  refine ⟨h8, h1, h2, h3, h4, h5, h6, h7, ?_, ?_⟩
  · intro s hsmem hne
    rw [h2]
    have : (if p.sessionId == some s.id then { s with cost := some p.amount } else s) = s := by
      have : (p.sessionId == some s.id) = false := by
        simpa [beq_iff_eq] using hne
      simp [this]
    have h2 := List.mem_map_of_mem
      (fun s => if p.sessionId == some s.id then { s with cost := some p.amount } else s) hsmem
    simpa only [this] using h2
  · intro b hbmem hne
    rw [h3]
    have : (if p.bookingId == some b.id then { b with totalCost := some p.amount } else b) = b := by
      have : (p.bookingId == some b.id) = false := by
        simpa [beq_iff_eq] using hne
      simp [this]
    have h2 := List.mem_map_of_mem
      (fun b => if p.bookingId == some b.id then { b with totalCost := some p.amount } else b) hbmem
    simpa only [this] using h2

/-- C6 witness: the theorem applied at the fixture — confirming `pi_50`
returns the completed payment. -/
theorem c6_confirm_witness :
    (confirmPayment c6Db c6Caller ("pi_50") ("pm_1") (some .succeeded)).2 =
      .ok { paymentId := 50, status := .COMPLETED, amount := 22 } :=
  (c6_confirm_success_updates c6Db c6Caller ("pi_50") ("pm_1") c6Payment rfl
    (by
      intro sid h
      have h' : some 5 = some sid := h
      injection h' with h2
      subst h2
      decide)
    (by
      intro bid h
      have h' : some 6 = some bid := h
      injection h' with h2
      subst h2
      decide)).1

/-! ## Claim C8 — registration atomicity -/

/-- C8: `register` is atomic over tenant + first-admin creation: either it
fails and the database is exactly the pre-state (no tenant, no user
persisted), or it succeeds and the post-state holds both the new tenant
and its TENANT_ADMIN user, the user owned by that tenant. -/
theorem c8_register_atomic :
    ∀ (db : DB) (input : RegisterInput) (userCreateFails : Bool),
      ((register db input userCreateFails).1 = db ∧
        ∃ e, (register db input userCreateFails).2 = .error e) ∨
      (∃ t u, (register db input userCreateFails).2 = .ok (t, u) ∧
        (register db input userCreateFails).1.tenants = db.tenants ++ [t] ∧
        (register db input userCreateFails).1.users = db.users ++ [u] ∧
        u.tenantId = t.id ∧ u.role = "TENANT_ADMIN") := by
  intro db input fail
  cases hdup : db.users.any fun u => u.email == input.email with
  | true =>
    left
    refine ⟨?_, .CONFLICT, ?_⟩ <;> simp [register, hdup]
  | false =>
    cases fail with
    | true =>
      left
      refine ⟨?_, .INTERNAL_SERVER_ERROR, ?_⟩ <;> simp [register, hdup]
    | false =>
      right
      refine ⟨{ id := db.nextId, name := input.tenantName,
                ttype := input.tenantType, isActive := true },
              { id := db.nextId + 1, email := input.email, tenantId := db.nextId,
                role := "TENANT_ADMIN", isActive := true },
              ?_, ?_, ?_, rfl, rfl⟩ <;> simp [register, hdup]

/-! ## Claim C9 — token refresh preserves identity -/

/-- C9: refreshing a token signed over payload `p` at time `t0`, at any
time `t1` before its expiry, yields exactly the token freshly signed over
`p` at `t1` — same `userId`, `tenantId` and `role`, only `iat`/`exp`
rebased — and that new token verifies to claims carrying payload `p`. -/
theorem c9_refresh_preserves_identity :
    ∀ (secret : String) (t0 t1 t2 : Nat) (p : JWTPayload),
      t1 < t0 + 86400 → t2 < t1 + 86400 →
      refreshToken secret t1 (signJWT secret t0 p) = .ok (signJWT secret t1 p) ∧
      verifyJWT secret t2 (signJWT secret t1 p) =
        .ok { payload := p, iat := t1, exp := t1 + 86400, issuer := "ev-platform" } := by
  intro secret t0 t1 t2 p h1 h2
  constructor
  · simp [refreshToken, verifyJWT, signJWT, h1]
  · simp [verifyJWT, signJWT, h2]

/-- C9 witness: the theorem applied at a concrete payload and times. -/
theorem c9_refresh_witness :
    refreshToken ("k") 100 (signJWT ("k") 0 c9Payload) = .ok (signJWT ("k") 100 c9Payload) ∧
    verifyJWT ("k") 200 (signJWT ("k") 100 c9Payload) =
      .ok { payload := c9Payload, iat := 100, exp := 100 + 86400, issuer := "ev-platform" } :=
  c9_refresh_preserves_identity ("k") 0 100 200 c9Payload (by decide) (by decide)

/-! ## Claim C10 — `utilizationRate` is occupied/total with no empty guard -/

/-- C10: whenever `getRealtimeStats` answers, `utilizationRate` is exactly
the occupied-port count divided by the station's total port count; for a
station with at least one port the rate is a rational in `[0, 1]`; for a
station with no ports the division's denominator (`totalPorts`) is `0`
(in the JavaScript source the quotient is then the non-number `NaN`; in
this `ℚ` model, division by zero). -/
theorem c10_utilization_rate :
    ∀ (db : DB) (c : AuthUser) (sid : Nat) (stats : RealtimeStats),
      getRealtimeStats db c sid = .ok stats →
      stats.utilizationRate = (stats.occupiedPorts : ℚ) / (stats.totalPorts : ℚ) ∧
      stats.occupiedPorts ≤ stats.totalPorts ∧
      (stats.totalPorts ≠ 0 →
        0 ≤ stats.utilizationRate ∧ stats.utilizationRate ≤ 1) ∧
      (stats.totalPorts = 0 →
        stats.utilizationRate = (stats.occupiedPorts : ℚ) / 0) := by
  intro db c sid stats h
  unfold getRealtimeStats at h
  cases hfind : db.stations.find? (fun s => s.id == sid && s.tenantId == c.tenantId) with
  | none =>
    rw [hfind] at h
    exact absurd h (by simp)
  | some s =>
    rw [hfind] at h
    injection h with h
    subst h
    refine ⟨rfl, List.length_filter_le _ _, fun h0 => ?_, fun h0 => ?_⟩
    · constructor
      · positivity
      · rw [div_le_one (by exact_mod_cast Nat.pos_of_ne_zero h0)]
        exact_mod_cast List.length_filter_le _ _
    · rw [show ((db.ports.filter fun p => p.stationId == s.id).length : ℚ) = 0 by
        exact_mod_cast h0]

/-- C10 witness: the theorem applied at the two-port fixture. -/
theorem c10_utilization_witness :
    c10Stats.utilizationRate = (c10Stats.occupiedPorts : ℚ) / (c10Stats.totalPorts : ℚ) ∧
    c10Stats.occupiedPorts ≤ c10Stats.totalPorts ∧
    (c10Stats.totalPorts ≠ 0 →
      0 ≤ c10Stats.utilizationRate ∧ c10Stats.utilizationRate ≤ 1) ∧
    (c10Stats.totalPorts = 0 →
      c10Stats.utilizationRate = (c10Stats.occupiedPorts : ℚ) / 0) :=
  c10_utilization_rate c10Db { id := 9, tenantId := 1, role := "OPERATOR" } 1
    c10Stats rfl

/-! ## Sorting lemmas for the `findNearby` pipeline -/

lemma mem_insertByKey {κ : Type} [LinearOrder κ] (key : Station → κ)
    (s a : Station) (l : List Station) :
    a ∈ insertByKey key s l ↔ a = s ∨ a ∈ l := by
  induction l with
  | nil => simp [insertByKey]
  | cons t ts ih =>
    simp only [insertByKey]
    split
    · simp [List.mem_cons]
    · simp only [List.mem_cons, ih]
      tauto

lemma length_insertByKey {κ : Type} [LinearOrder κ] (key : Station → κ)
    (s : Station) (l : List Station) :
    (insertByKey key s l).length = l.length + 1 := by
  induction l with
  | nil => simp [insertByKey]
  | cons t ts ih =>
    simp only [insertByKey]
    split
    · simp
    · simp [ih]

lemma mem_sortByKey {κ : Type} [LinearOrder κ] (key : Station → κ)
    (a : Station) (l : List Station) :
    a ∈ sortByKey key l ↔ a ∈ l := by
  induction l with
  | nil => simp [sortByKey]
  | cons t ts ih =>
    simp only [sortByKey, mem_insertByKey, List.mem_cons, ih]

lemma length_sortByKey {κ : Type} [LinearOrder κ] (key : Station → κ)
    (l : List Station) : (sortByKey key l).length = l.length := by
  induction l with
  | nil => rfl
  | cons t ts ih => simp [sortByKey, length_insertByKey, ih]

lemma pairwise_insertByKey {κ : Type} [LinearOrder κ] (key : Station → κ)
    (s : Station) (l : List Station)
    (h : l.Pairwise fun a b => key a ≤ key b) :
    (insertByKey key s l).Pairwise fun a b => key a ≤ key b := by
  induction l with
  | nil => simp [insertByKey]
  | cons t ts ih =>
    rcases List.pairwise_cons.mp h with ⟨h1, h2⟩
    simp only [insertByKey]
    split
    case isTrue hle =>
      refine List.pairwise_cons.mpr ⟨?_, h⟩
      intro x hx
      rcases List.mem_cons.mp hx with rfl | hx
      · exact hle
      · exact hle.trans (h1 x hx)
    case isFalse hle =>
      refine List.pairwise_cons.mpr ⟨?_, ih h2⟩
      intro x hx
      rcases (mem_insertByKey key s x ts).mp hx with rfl | hx
      · exact le_of_not_le hle
      · exact h1 x hx

lemma pairwise_sortByKey {κ : Type} [LinearOrder κ] (key : Station → κ)
    (l : List Station) :
    (sortByKey key l).Pairwise fun a b => key a ≤ key b := by
  induction l with
  | nil => simp [sortByKey]
  | cons t ts ih => exact pairwise_insertByKey key t _ ih

/-! ## Pipeline lemmas for `findNearby` -/

lemma mem_nearbyQualifying {κ : Type} [LinearOrder κ] (dist : Station → κ)
    (radius : κ) (db : DB) (s : Station) :
    s ∈ nearbyQualifying dist radius db ↔
      s ∈ db.stations ∧ s.isActive = true ∧ dist s < radius := by
  simp [nearbyQualifying, List.mem_filter, Bool.and_eq_true, decide_eq_true_eq,
    and_assoc]

lemma findNearby_sound {κ : Type} [LinearOrder κ] (dist : Station → κ)
    (radius : κ) (ct : Option ConnectorType) (ao : Bool) (db : DB)
    (r : NearbyStation) (hr : r ∈ findNearby dist radius ct ao db) :
    r.station.isActive = true ∧ dist r.station < radius ∧
    r.station ∈ db.stations ∧
    r.chargingPorts = db.ports.filter (portMatchesFilters ct ao r.station.id) := by
  have hr1 := (List.mem_filter.mp hr).1
  rcases List.mem_map.mp hr1 with ⟨s, hs, rfl⟩
  have hs1 : s ∈ sortByKey dist (nearbyQualifying dist radius db) :=
    List.take_subset 50 _ hs
  have hs2 := (mem_sortByKey dist s _).mp hs1
  have hs3 := (mem_nearbyQualifying dist radius db s).mp hs2
  exact ⟨hs3.2.1, hs3.2.2, hs3.1, rfl⟩

lemma findNearby_length_le {κ : Type} [LinearOrder κ] (dist : Station → κ)
    (radius : κ) (ct : Option ConnectorType) (ao : Bool) (db : DB) :
    (findNearby dist radius ct ao db).length ≤ 50 := by
  calc (findNearby dist radius ct ao db).length
      ≤ (((sortByKey dist (nearbyQualifying dist radius db)).take 50).map
          (nearbyPorts ct ao db)).length := List.length_filter_le _ _
    _ = ((sortByKey dist (nearbyQualifying dist radius db)).take 50).length :=
        List.length_map _ _
    _ ≤ 50 := by
        rw [List.length_take]
        exact min_le_left _ _

lemma findNearby_sorted {κ : Type} [LinearOrder κ] (dist : Station → κ)
    (radius : κ) (ct : Option ConnectorType) (ao : Bool) (db : DB) :
    (findNearby dist radius ct ao db).Pairwise
      fun a b => dist a.station ≤ dist b.station := by
  have h1 : (sortByKey dist (nearbyQualifying dist radius db)).Pairwise
      (fun a b => dist a ≤ dist b) := pairwise_sortByKey dist _
  have h2 : ((sortByKey dist (nearbyQualifying dist radius db)).take 50).Pairwise
      (fun a b => dist a ≤ dist b) :=
    h1.sublist (List.take_sublist 50 _)
  have h3 : (((sortByKey dist (nearbyQualifying dist radius db)).take 50).map
      (nearbyPorts ct ao db)).Pairwise
      (fun a b : NearbyStation => dist a.station ≤ dist b.station) :=
    List.pairwise_map.mpr h2
  exact h3.sublist (List.filter_sublist _)

lemma findNearby_complete {κ : Type} [LinearOrder κ] (dist : Station → κ)
    (radius : κ) (ct : Option ConnectorType) (db : DB)
    (hcount : (nearbyQualifying dist radius db).length ≤ 50) (s : Station) :
    (∃ r ∈ findNearby dist radius ct false db, r.station = s) ↔
      s ∈ db.stations ∧ s.isActive = true ∧ dist s < radius := by
  have hfull : (sortByKey dist (nearbyQualifying dist radius db)).take 50 =
      sortByKey dist (nearbyQualifying dist radius db) := by
    apply List.take_of_length_le
    rw [length_sortByKey]
    exact hcount
  have hfilter : ∀ l : List NearbyStation,
      (l.filter fun r => !false || r.availablePorts > 0) = l := by
    intro l
    apply List.filter_eq_self.mpr
    intro a _
    simp
  constructor
  · rintro ⟨r, hr, rfl⟩
    obtain ⟨h1, h2, h3, _⟩ := findNearby_sound dist radius ct false db r hr
    exact ⟨h3, h1, h2⟩
  · intro hq
    refine ⟨nearbyPorts ct false db s, ?_, rfl⟩
    rw [findNearby, hfilter]
    apply List.mem_map_of_mem
    rw [hfull, mem_sortByKey, mem_nearbyQualifying]
    exact hq

/-! ## Numeric facts for the `findNearby` scenario -/

lemma radians_sub (p q : ℚ) :
    radians p - radians q = ((p - q : ℚ) : ℝ) * Real.pi / 180 := by
  simp only [radians]
  push_cast
  ring

lemma radians_mem_Ioo (q : ℚ) (h0 : 0 < q) (h90 : q < 90) :
    radians q ∈ Set.Ioo (-(Real.pi / 2)) (Real.pi / 2) := by
  have hq : (0 : ℝ) < (q : ℝ) := by exact_mod_cast h0
  have hq90 : ((q : ℝ)) < 90 := by exact_mod_cast h90
  have hπ : (0 : ℝ) < Real.pi := Real.pi_pos
  constructor
  · rw [radians]
    have : (0 : ℝ) < (q : ℝ) * Real.pi / 180 := by positivity
    linarith
  · rw [radians, div_lt_iff₀ (by norm_num : (0:ℝ) < 180)]
    nlinarith

set_option maxHeartbeats 1000000 in
lemma near_dist_lt : sqlDistance 37.7849 (-122.4094) nearStation < 10 := by
  have hπ1 : (3.14 : ℝ) < Real.pi := Real.pi_gt_d2
  have hπ2 : Real.pi < 3.15 := Real.pi_lt_d2
  have hπ0 : (0 : ℝ) < Real.pi := Real.pi_pos
  have hexp : sqlDistance 37.7849 (-122.4094) nearStation =
      6371 * Real.arccos
        (Real.cos (radians 37.7849) * Real.cos (radians 37.7749) *
          Real.cos (radians (-122.4194) - radians (-122.4094)) +
          Real.sin (radians 37.7849) * Real.sin (radians 37.7749)) := rfl
  rw [hexp]
  set a := radians 37.7849 with ha
  set b := radians 37.7749 with hb
  set t := Real.pi / 18000 with htdef
  set u := (10 : ℝ) / 6371 with hudef
  have hab : a - b = t := by
    rw [ha, hb, radians_sub, htdef]
    push_cast
    ring
  have hd : radians (-122.4194) - radians (-122.4094) = -t := by
    rw [radians_sub, htdef]
    push_cast
    ring
  rw [hd, Real.cos_neg]
  have hsin : Real.sin a * Real.sin b =
      Real.cos (a - b) - Real.cos a * Real.cos b := by
    rw [Real.cos_sub]
    ring
  rw [hsin, hab]
  set X := Real.cos a * Real.cos b * Real.cos t +
    (Real.cos t - Real.cos a * Real.cos b) with hXdef
  have hca : 0 < Real.cos a :=
    Real.cos_pos_of_mem_Ioo (radians_mem_Ioo 37.7849 (by norm_num) (by norm_num))
  have hcb : 0 < Real.cos b :=
    Real.cos_pos_of_mem_Ioo (radians_mem_Ioo 37.7749 (by norm_num) (by norm_num))
  have hcc1 : Real.cos a * Real.cos b ≤ 1 := by
    nlinarith [Real.cos_le_one a, Real.cos_le_one b]
  have hcc0 : 0 ≤ Real.cos a * Real.cos b := by positivity
  have ht0 : 0 < t := by rw [htdef]; positivity
  have ht1 : t ≤ 0.000175 := by rw [htdef]; nlinarith
  have hct_le : Real.cos t ≤ 1 := Real.cos_le_one t
  have hct_ge : 1 - t ^ 2 / 2 ≤ Real.cos t := Real.one_sub_sq_div_two_le_cos
  have hone_cc : (0 : ℝ) ≤ 1 + Real.cos a * Real.cos b := by linarith
  have hXlow : 1 - t ^ 2 ≤ X := by
    rw [hXdef]
    nlinarith [mul_le_mul_of_nonneg_right hct_ge hone_cc, sq_nonneg t]
  have hXhigh : X ≤ 1 := by
    rw [hXdef]
    nlinarith [mul_nonneg hcc0 (by linarith : (0:ℝ) ≤ 1 - Real.cos t)]
  have hXneg : (-1 : ℝ) ≤ X := by nlinarith [hXlow, ht1, ht0]
  have hu0 : (0 : ℝ) ≤ u := by rw [hudef]; norm_num
  have huπ : u ≤ Real.pi := by rw [hudef]; nlinarith
  have habs : |u| ≤ Real.pi := by rw [abs_of_nonneg hu0]; exact huπ
  have hcu : Real.cos u ≤ 1 - 2 / Real.pi ^ 2 * u ^ 2 :=
    Real.cos_le_one_sub_mul_cos_sq habs
  have hpi2 : Real.pi ^ 2 ≤ 10 := by nlinarith
  have key : (1 : ℝ) / 5 ≤ 2 / Real.pi ^ 2 := by
    rw [div_le_div_iff₀ (by norm_num) (by positivity)]
    nlinarith
  have hcu2 : Real.cos u ≤ 1 - u ^ 2 / 5 := by
    have h2 := mul_le_mul_of_nonneg_right key (sq_nonneg u)
    linarith [hcu]
  have hu2val : (0.00000049 : ℝ) ≤ u ^ 2 / 5 := by
    rw [hudef]
    norm_num
  have hfinal_lt : Real.cos u < X := by
    nlinarith [hXlow, ht1, ht0, hcu2, hu2val]
  have harc : Real.arccos X < u := by
    have h1 : Real.arccos X < Real.arccos (Real.cos u) :=
      Real.strictAntiOn_arccos ⟨Real.neg_one_le_cos u, Real.cos_le_one u⟩
        ⟨hXneg, hXhigh⟩ hfinal_lt
    rwa [Real.arccos_cos hu0 huπ] at h1
  calc 6371 * Real.arccos X < 6371 * u := by nlinarith [harc]
    _ = 10 := by rw [hudef]; norm_num

set_option maxHeartbeats 1000000 in
lemma far_dist_ge : (10 : ℝ) ≤ sqlDistance 37.7849 (-122.4094) farStation := by
  have hπ1 : (3.14 : ℝ) < Real.pi := Real.pi_gt_d2
  have hπ2 : Real.pi < 3.15 := Real.pi_lt_d2
  have hπ0 : (0 : ℝ) < Real.pi := Real.pi_pos
  have hexp : sqlDistance 37.7849 (-122.4094) farStation =
      6371 * Real.arccos
        (Real.cos (radians 37.7849) * Real.cos (radians 38.2749) *
          Real.cos (radians (-122.4194) - radians (-122.4094)) +
          Real.sin (radians 37.7849) * Real.sin (radians 38.2749)) := rfl
  rw [hexp]
  set a := radians 37.7849 with ha
  set b := radians 38.2749 with hb
  set t := Real.pi / 18000 with htdef
  set v := 49 * Real.pi / 18000 with hvdef
  set u := (10 : ℝ) / 6371 with hudef
  have hab : a - b = -v := by
    rw [ha, hb, radians_sub, hvdef]
    push_cast
    ring
  have hd : radians (-122.4194) - radians (-122.4094) = -t := by
    rw [radians_sub, htdef]
    push_cast
    ring
  rw [hd, Real.cos_neg]
  have hsin : Real.sin a * Real.sin b =
      Real.cos (a - b) - Real.cos a * Real.cos b := by
    rw [Real.cos_sub]
    ring
  rw [hsin, hab, Real.cos_neg]
  set Y := Real.cos a * Real.cos b * Real.cos t +
    (Real.cos v - Real.cos a * Real.cos b) with hYdef
  have hca : 0 < Real.cos a :=
    Real.cos_pos_of_mem_Ioo (radians_mem_Ioo 37.7849 (by norm_num) (by norm_num))
  have hcb : 0 < Real.cos b :=
    Real.cos_pos_of_mem_Ioo (radians_mem_Ioo 38.2749 (by norm_num) (by norm_num))
  have hcc1 : Real.cos a * Real.cos b ≤ 1 := by
    nlinarith [Real.cos_le_one a, Real.cos_le_one b]
  have hcc0 : 0 ≤ Real.cos a * Real.cos b := by positivity
  have ht0 : 0 < t := by rw [htdef]; positivity
  have ht1 : t ≤ 0.000175 := by rw [htdef]; nlinarith
  have hct_le : Real.cos t ≤ 1 := Real.cos_le_one t
  have hct_ge : 1 - t ^ 2 / 2 ≤ Real.cos t := Real.one_sub_sq_div_two_le_cos
  have hcv_ge : 1 - v ^ 2 / 2 ≤ Real.cos v := Real.one_sub_sq_div_two_le_cos
  have hv0 : 0 < v := by rw [hvdef]; positivity
  have hv1 : v ≤ 0.008575 := by rw [hvdef]; nlinarith
  have hvπ : v ≤ Real.pi := by nlinarith
  have hu0 : (0 : ℝ) ≤ u := by rw [hudef]; norm_num
  have huπ : u ≤ Real.pi := by rw [hudef]; nlinarith
  have huv : u ≤ v := by
    rw [hudef, hvdef, div_le_div_iff₀ (by norm_num) (by norm_num)]
    nlinarith
  have hterm : Real.cos a * Real.cos b * (1 - Real.cos t) ≤ 1 - Real.cos t := by
    nlinarith [mul_nonneg (by linarith : (0:ℝ) ≤ 1 - Real.cos a * Real.cos b)
      (by linarith : (0:ℝ) ≤ 1 - Real.cos t)]
  have hY_le : Y ≤ Real.cos v := by
    rw [hYdef]
    nlinarith [mul_nonneg hcc0 (by linarith : (0:ℝ) ≤ 1 - Real.cos t)]
  have hcv_le_cu : Real.cos v ≤ Real.cos u :=
    Real.cos_le_cos_of_nonneg_of_le_pi hu0 hvπ huv
  have hY_le_cu : Y ≤ Real.cos u := le_trans hY_le hcv_le_cu
  have hYneg : (-1 : ℝ) ≤ Y := by
    rw [hYdef]
    nlinarith [hcv_ge, hv1, hv0, hct_ge, ht1, ht0, hterm]
  have hYhigh : Y ≤ 1 := le_trans hY_le (Real.cos_le_one v)
  have harc : u ≤ Real.arccos Y := by
    have h1 : Real.arccos (Real.cos u) ≤ Real.arccos Y :=
      (Real.strictAntiOn_arccos.le_iff_le
        ⟨Real.neg_one_le_cos u, Real.cos_le_one u⟩ ⟨hYneg, hYhigh⟩).mpr hY_le_cu
    rwa [Real.arccos_cos hu0 huπ] at h1
  calc (10 : ℝ) = 6371 * u := by rw [hudef]; norm_num
    _ ≤ 6371 * Real.arccos Y := by nlinarith [harc]

lemma scenario_findNearby_eval :
    findNearby (sqlDistance 37.7849 (-122.4094)) (10 : ℝ) none false scenarioDb =
      [nearbyPorts none false scenarioDb nearStation] := by
  have h1 : (nearStation.isActive &&
      decide (sqlDistance 37.7849 (-122.4094) nearStation < 10)) = true := by
    simp only [Bool.and_eq_true, decide_eq_true_eq]
    exact ⟨rfl, near_dist_lt⟩
  have h2 : (farStation.isActive &&
      decide (sqlDistance 37.7849 (-122.4094) farStation < 10)) = false := by
    rw [Bool.eq_false_iff]
    intro hcontra
    simp only [Bool.and_eq_true, decide_eq_true_eq] at hcontra
    exact absurd hcontra.2 (not_lt.mpr far_dist_ge)
  have hq : nearbyQualifying (sqlDistance 37.7849 (-122.4094)) 10 scenarioDb =
      [nearStation] := by
    show List.filter _ [nearStation, farStation] = [nearStation]
    simp only [List.filter_cons, h1, h2, if_true, if_false, List.filter_nil,
      Bool.false_eq_true, List.filter_eq_nil_iff]
  unfold findNearby
  rw [hq]
  simp [sortByKey, insertByKey]

/-- C7: for every distance key, radius and database, `findNearby` returns
only active stations with distance strictly below the radius, at most 50
of them, sorted ascending by distance, each carrying exactly the ports
matching the connector-type/availability filters; when at most 50 stations
qualify, the returned set is exactly the qualifying set.  For the SQL
haversine distance at the spec's scenario, the station ≈1.4 km from
(37.7849, -122.4094) is returned for radius 10 km and a station ≈54 km
away is not. -/
theorem c7_findNearby_spec :
    (∀ (κ : Type) [LinearOrder κ] (dist : Station → κ) (radius : κ)
        (db : DB) (ct : Option ConnectorType) (ao : Bool),
      (∀ r ∈ findNearby dist radius ct ao db,
        r.station.isActive = true ∧ dist r.station < radius ∧
        r.station ∈ db.stations ∧
        r.chargingPorts = db.ports.filter (portMatchesFilters ct ao r.station.id)) ∧
      (findNearby dist radius ct ao db).length ≤ 50 ∧
      (findNearby dist radius ct ao db).Pairwise
        (fun a b => dist a.station ≤ dist b.station) ∧
      ((nearbyQualifying dist radius db).length ≤ 50 →
        ∀ s : Station,
          (∃ r ∈ findNearby dist radius ct false db, r.station = s) ↔
            (s ∈ db.stations ∧ s.isActive = true ∧ dist s < radius))) ∧
    (∃ r ∈ findNearby (sqlDistance 37.7849 (-122.4094)) (10 : ℝ) none false scenarioDb,
        r.station = nearStation) ∧
    (∀ r ∈ findNearby (sqlDistance 37.7849 (-122.4094)) (10 : ℝ) none false scenarioDb,
        r.station ≠ farStation) := by
  refine ⟨?_, ?_, ?_⟩
  · intro κ _ dist radius db ct ao
    exact ⟨fun r hr => findNearby_sound dist radius ct ao db r hr,
      findNearby_length_le dist radius ct ao db,
      findNearby_sorted dist radius ct ao db,
      fun hc s => findNearby_complete dist radius ct db hc s⟩
  · rw [scenario_findNearby_eval]
    exact ⟨nearbyPorts none false scenarioDb nearStation, by simp, rfl⟩
  · rw [scenario_findNearby_eval]
    intro r hr
    have hr' : r = nearbyPorts none false scenarioDb nearStation := by
      simpa using hr
    rw [hr']
    show nearStation ≠ farStation
    decide

/-- C7 witness: the exactness part of the theorem applied at an executable
rational distance key on a one-station database. -/
theorem c7_findNearby_witness :
    (∃ r ∈ findNearby (fun s : Station => s.latitude) (100 : ℚ) none false
        c7WitnessDb, r.station = c7WitnessStation) ↔
      (c7WitnessStation ∈ c7WitnessDb.stations ∧
        c7WitnessStation.isActive = true ∧ c7WitnessStation.latitude < 100) :=
  (c7_findNearby_spec.1 ℚ (fun s => s.latitude) 100 c7WitnessDb none false).2.2.2
    (by decide) c7WitnessStation

end EV
